import Mathlib

/-!
Shallow embedding of the IOCL fuel-station dashboard (`archive/app.py`).

The program is a single script: a file locator (`get_latest_csv`), a data
loader (`load_data`), a two-level region filter, and four read-only
presentation projections (statistics, bar chart, map, table).  Python
strings are modelled by Lean `String`; missing numeric values (pandas
`NaN`) are modelled by `Option ℚ` with `none` for missing; exceptions
propagating out of the script are modelled by `Except String`.
-/

/-! ### String helpers

`str.startswith` / `str.endswith` / the slice `x[5:-4]` from the source,
modelled on the character list of the string. -/

/-- Model of Python `s.startswith(p)`. -/
def strStartsWith (s p : String) : Bool := p.data.isPrefixOf s.data

/-- Model of Python `s.endswith(p)`. -/
def strEndsWith (s p : String) : Bool := p.data.isSuffixOf s.data

/-- Model of the Python slice `x[5:-4]` used in `get_latest_csv`:
the characters of `x` from index 5 up to (but excluding) index `len - 4`. -/
def timestampPart (s : String) : List Char := (s.data.drop 5).take (s.data.length - 9)

/-! ### Timestamp parsing

`datetime.strptime(x[5:-4], '%Y_%m_%d_%H%M%S')` from `get_latest_csv`,
modelled on the canonical fixed-width form `YYYY_MM_DD_HHMMSS` produced by
the archive naming convention, with the field ranges `datetime` validates
(year 1-9999, month 1-12, day bounded by the month length with leap years,
hour 0-23, minute 0-59, second 0-59: the `datetime` constructor rejects the
leap seconds 60-61 that the format regex alone would let through, raising
`ValueError: second must be in 0..59`).  A successfully parsed timestamp is
encoded as a single natural number that orders exactly like the parsed
`datetime` values. -/

/-- Numeric value of a decimal digit character. -/
def digitVal (c : Char) : Nat := c.toNat - 48

/-- Value of a two-digit decimal field. -/
def digit2 (a b : Char) : Nat := 10 * digitVal a + digitVal b

/-- Value of a four-digit decimal field. -/
def digit4 (a b c d : Char) : Nat :=
  1000 * digitVal a + 100 * digitVal b + 10 * digitVal c + digitVal d

/-- Gregorian leap-year rule used by `datetime`. -/
def isLeapYear (y : Nat) : Bool := y % 4 == 0 && (y % 100 != 0 || y % 400 == 0)

/-- Number of days of month `m` in year `y`. -/
def daysInMonth (y m : Nat) : Nat :=
  if m = 2 then (if isLeapYear y then 29 else 28)
  else if m = 4 ∨ m = 6 ∨ m = 9 ∨ m = 11 then 30
  else 31

/-- Order-preserving encoding of a validated timestamp as one natural number. -/
def tsKey (y mo dy hr mi se : Nat) : Nat :=
  ((((y * 100 + mo) * 100 + dy) * 100 + hr) * 100 + mi) * 100 + se

/-- Model of `datetime.strptime(cs, '%Y_%m_%d_%H%M%S')`: `some` of the
encoded timestamp on success, `none` where `strptime` raises `ValueError`. -/
def strptimeTs (cs : List Char) : Option Nat :=
  match cs with
  | [y1, y2, y3, y4, u1, m1, m2, u2, d1, d2, u3, h1, h2, n1, n2, c1, c2] =>
    if ([y1, y2, y3, y4, m1, m2, d1, d2, h1, h2, n1, n2, c1, c2].all Char.isDigit
        && u1 == '_' && u2 == '_' && u3 == '_') then
      let y := digit4 y1 y2 y3 y4
      let mo := digit2 m1 m2
      let dy := digit2 d1 d2
      if 1 ≤ y ∧ 1 ≤ mo ∧ mo ≤ 12 ∧ 1 ≤ dy ∧ dy ≤ daysInMonth y mo ∧
         digit2 h1 h2 ≤ 23 ∧ digit2 n1 n2 ≤ 59 ∧ digit2 c1 c2 ≤ 59 then
        some (tsKey y mo dy (digit2 h1 h2) (digit2 n1 n2) (digit2 c1 c2))
      else none
    else none
  | _ => none

/-! ### File locator (`get_latest_csv`) -/

/-- The filename predicate of `get_latest_csv`:
`f.startswith('IOCL_') and f.endswith('.csv')`. -/
def isArchiveCsv (f : String) : Bool := strStartsWith f "IOCL_" && strEndsWith f ".csv"

/-- Timestamp key of a filename: `datetime.strptime(x[5:-4], '%Y_%m_%d_%H%M%S')`. -/
def keyOf (f : String) : Option Nat := strptimeTs (timestampPart f)

/-- Evaluation of the `max` key on every element of the candidate list:
`some` of the keyed list when every key evaluation succeeds, `none` when
any `strptime` call raises. -/
def strptimeKeys : List String → Option (List (String × Nat))
  | [] => some []
  | g :: gs =>
    match keyOf g, strptimeKeys gs with
    | some k, some rest => some ((g, k) :: rest)
    | _, _ => none

/-- Model of Python `max(..., key=...)` over an accumulator: the current
maximum is replaced only by a strictly greater key, so among equal keys the
earliest element wins, as `max` does. -/
def pickMax : List (String × Nat) → String × Nat → String × Nat
  | [], best => best
  | p :: ps, best => pickMax ps (if best.2 < p.2 then p else best)

/-- Model of `get_latest_csv()`: `files` is the directory listing
(`os.listdir('archive')`).  Returns `.ok none` when no filename matches the
convention, `.ok (some path)` with `path = 'archive/' + latest` otherwise,
and `.error` when a `strptime` call inside the `max` key raises. -/
def get_latest_csv (files : List String) : Except String (Option String) :=
  match files.filter isArchiveCsv with
  | [] => Except.ok none
  | f0 :: rest =>
    match strptimeKeys (f0 :: rest) with
    | none => Except.error "ValueError: time data does not match format %Y_%m_%d_%H%M%S"
    | some [] => Except.ok none
    | some (p :: ps) => Except.ok (some ("archive/" ++ (pickMax ps p).1))

/-! ### Lemmas about the file locator -/

theorem strptimeKeys_fst {gs : List String} {ps : List (String × Nat)}
    (h : strptimeKeys gs = some ps) : ps.map Prod.fst = gs := by
  induction gs generalizing ps with
  | nil => simp [strptimeKeys] at h; simp [← h]
  | cons g gs ih =>
    simp only [strptimeKeys] at h
    cases hk : keyOf g with
    | none => rw [hk] at h; exact absurd h (by simp)
    | some k =>
      rw [hk] at h
      cases hr : strptimeKeys gs with
      | none => rw [hr] at h; exact absurd h (by simp)
      | some rest =>
        rw [hr] at h
        simp only [Option.some.injEq] at h
        subst h
        simp [ih hr]

theorem strptimeKeys_keyOf {gs : List String} {ps : List (String × Nat)}
    (h : strptimeKeys gs = some ps) : ∀ p ∈ ps, keyOf p.1 = some p.2 := by
  induction gs generalizing ps with
  | nil => simp [strptimeKeys] at h; subst h; simp
  | cons g gs ih =>
    simp only [strptimeKeys] at h
    cases hk : keyOf g with
    | none => rw [hk] at h; exact absurd h (by simp)
    | some k =>
      rw [hk] at h
      cases hr : strptimeKeys gs with
      | none => rw [hr] at h; exact absurd h (by simp)
      | some rest =>
        rw [hr] at h
        simp only [Option.some.injEq] at h
        subst h
        intro p hp
        rcases List.mem_cons.mp hp with rfl | hp
        · exact hk
        · exact ih hr p hp

theorem strptimeKeys_total {gs : List String}
    (h : ∀ g ∈ gs, (keyOf g).isSome) : ∃ ps, strptimeKeys gs = some ps := by
  induction gs with
  | nil => exact ⟨[], rfl⟩
  | cons g gs ih =>
    obtain ⟨k, hk⟩ := Option.isSome_iff_exists.mp (h g (List.mem_cons_self g gs))
    obtain ⟨rest, hr⟩ := ih (fun x hx => h x (List.mem_cons_of_mem g hx))
    exact ⟨(g, k) :: rest, by simp [strptimeKeys, hk, hr]⟩

theorem pickMax_mem : ∀ (ps : List (String × Nat)) (best : String × Nat),
    pickMax ps best ∈ best :: ps := by
  intro ps
  induction ps with
  | nil => intro best; simp [pickMax]
  | cons p ps ih =>
    intro best
    simp only [pickMax]
    by_cases h : best.2 < p.2
    · simp only [h, if_pos]
      rcases List.mem_cons.mp (ih p) with h' | h'
      · simp [h']
      · simp [List.mem_cons_of_mem, h']
    · simp only [h, if_neg, if_false]
      rcases List.mem_cons.mp (ih best) with h' | h'
      · simp [h']
      · simp [List.mem_cons_of_mem, h']

theorem pickMax_ge : ∀ (ps : List (String × Nat)) (best : String × Nat),
    ∀ q ∈ best :: ps, q.2 ≤ (pickMax ps best).2 := by
  intro ps
  induction ps with
  | nil => intro best q hq; simp at hq; simp [pickMax, hq]
  | cons p ps ih =>
    intro best q hq
    simp only [pickMax]
    by_cases h : best.2 < p.2
    · simp only [h, if_pos]
      rcases List.mem_cons.mp hq with rfl | hq
      · exact le_trans (le_of_lt h) (ih p p (List.mem_cons_self p ps))
      · rcases List.mem_cons.mp hq with rfl | hq
        · exact ih q q (List.mem_cons_self q ps)
        · exact ih p q (List.mem_cons_of_mem p hq)
    · simp only [h, if_neg, if_false]
      rcases List.mem_cons.mp hq with rfl | hq
      · exact ih q q (List.mem_cons_self q ps)
      · rcases List.mem_cons.mp hq with rfl | hq
        · exact le_trans (le_of_not_lt h) (ih best best (List.mem_cons_self best ps))
        · exact ih best q (List.mem_cons_of_mem best hq)

/-- C1: with every matching filename parseable, `get_latest_csv` returns
`None` on an empty match set and otherwise `archive/` joined with a
matching file whose embedded timestamp is maximal among all matches. -/
theorem claim_C1 (files : List String)
    (h : ∀ f ∈ files.filter isArchiveCsv, (keyOf f).isSome) :
    (files.filter isArchiveCsv = [] → get_latest_csv files = Except.ok none) ∧
    (files.filter isArchiveCsv ≠ [] →
      ∃ f ∈ files.filter isArchiveCsv,
        get_latest_csv files = Except.ok (some ("archive/" ++ f)) ∧
        ∀ g ∈ files.filter isArchiveCsv, (keyOf g).getD 0 ≤ (keyOf f).getD 0) := by
  constructor
  · intro hempty
    simp only [get_latest_csv, hempty]
  · intro hne
    cases hL : files.filter isArchiveCsv with
    | nil => exact absurd hL hne
    | cons f0 rest =>
      rw [hL] at h
      obtain ⟨ps, hps⟩ := strptimeKeys_total h
      have hfst := strptimeKeys_fst hps
      cases ps with
      | nil => simp at hfst
      | cons p ps' =>
        refine ⟨(pickMax ps' p).1, ?_, ?_, ?_⟩
        · rw [← hfst]
          exact List.mem_map_of_mem Prod.fst (pickMax_mem ps' p)
        · simp only [get_latest_csv, hL, hps]
        · intro g hg
          rw [← hfst] at hg
          obtain ⟨q, hq, hq1⟩ := List.mem_map.mp hg
          have hkq : keyOf q.1 = some q.2 := strptimeKeys_keyOf hps q hq
          have hkm : keyOf (pickMax ps' p).1 = some (pickMax ps' p).2 :=
            strptimeKeys_keyOf hps _ (pickMax_mem ps' p)
          rw [← hq1, hkq, hkm]
          simpa using pickMax_ge ps' p q hq

/-- Directory listing of the end-to-end scenario of the spec, plus one
filename that does not match the convention. -/
def demoListing : List String :=
  ["IOCL_2024_01_01_120000.csv", "notes.txt", "IOCL_2024_06_15_090000.csv"]

theorem claim_C1_witness :
    ∃ f ∈ demoListing.filter isArchiveCsv,
      get_latest_csv demoListing = Except.ok (some ("archive/" ++ f)) ∧
      ∀ g ∈ demoListing.filter isArchiveCsv, (keyOf g).getD 0 ≤ (keyOf f).getD 0 := by
  have hfb : demoListing.filter isArchiveCsv =
      ["IOCL_2024_01_01_120000.csv", "IOCL_2024_06_15_090000.csv"] := by decide
  have hd : ∀ f ∈ demoListing.filter isArchiveCsv, (keyOf f).isSome := by
    intro f hf
    rw [hfb] at hf
    simp only [List.mem_cons, List.not_mem_nil, or_false] at hf
    rcases hf with rfl | rfl <;> decide
  exact (claim_C1 demoListing hd).2 (by rw [hfb]; simp)

/-- C10: `get_latest_csv` is total whenever the timestamp part of every
matching filename parses, and the listing containing only `IOCL_x.csv`
reaches the `strptime` error branch instead of returning. -/
theorem claim_C10 :
    (∀ files : List String, (∀ f ∈ files.filter isArchiveCsv, (keyOf f).isSome) →
      ∃ r, get_latest_csv files = Except.ok r) ∧
    (∃ e, get_latest_csv ["IOCL_x.csv"] = Except.error e) := by
  constructor
  · intro files h
    cases hL : files.filter isArchiveCsv with
    | nil => exact ⟨none, by simp only [get_latest_csv, hL]⟩
    | cons f0 rest =>
      rw [hL] at h
      obtain ⟨ps, hps⟩ := strptimeKeys_total h
      have hfst := strptimeKeys_fst hps
      cases ps with
      | nil => simp at hfst
      | cons p ps' =>
        exact ⟨some ("archive/" ++ (pickMax ps' p).1), by
          simp only [get_latest_csv, hL, hps]⟩
  · exact ⟨"ValueError: time data does not match format %Y_%m_%d_%H%M%S", rfl⟩

theorem claim_C10_witness :
    ∃ r, get_latest_csv ["IOCL_2024_01_01_120000.csv"] = Except.ok r := by
  refine claim_C10.1 ["IOCL_2024_01_01_120000.csv"] ?_
  intro f hf
  have hfb : (["IOCL_2024_01_01_120000.csv"] : List String).filter isArchiveCsv =
      ["IOCL_2024_01_01_120000.csv"] := by decide
  rw [hfb] at hf
  simp only [List.mem_cons, List.not_mem_nil, or_false] at hf
  subst hf
  decide

/-! ### Numeric coercion (`pd.to_numeric(..., errors='coerce')`)

Price cells run through `df[col].replace('Not Available', np.nan)` followed
by `pd.to_numeric(..., errors='coerce')`; latitude and longitude run through
`pd.to_numeric(..., errors='coerce')` directly.  A cell that fails numeric
parsing becomes `NaN`, modelled as `none`. -/

/-- Value of a nonempty all-digit character list. -/
def digitsToNat (l : List Char) : Nat := l.foldl (fun a c => a * 10 + digitVal c) 0

/-- Parse an unsigned decimal literal (digits with an optional fractional
point) as a rational. -/
def parseUnsignedRat (cs : List Char) : Option ℚ :=
  match cs.dropWhile Char.isDigit with
  | [] =>
    if cs.isEmpty then none else some (digitsToNat cs)
  | '.' :: frac =>
    if frac.all Char.isDigit ∧ ¬(cs.takeWhile Char.isDigit).isEmpty ∨
       (cs.takeWhile Char.isDigit).isEmpty ∧ frac.all Char.isDigit ∧ ¬frac.isEmpty then
      some ((digitsToNat (cs.takeWhile Char.isDigit) : ℚ) +
            (digitsToNat frac : ℚ) / (10 : ℚ) ^ frac.length)
    else none
  | _ => none

/-- Model of numeric coercion of one cell: `some` of the parsed value, or
`none` (pandas `NaN`) for a non-numeric string. -/
def parseNumeric (s : String) : Option ℚ :=
  match s.data with
  | '-' :: rest => (parseUnsignedRat rest).map Neg.neg
  | '+' :: rest => parseUnsignedRat rest
  | cs => parseUnsignedRat cs

/-- Model of `df[col].replace('Not Available', np.nan)` on one cell:
`none` models `np.nan`. -/
def replaceNotAvailable (s : String) : Option String :=
  if s = "Not Available" then none else some s

/-- Coercion of one price cell: replace the sentinel, then coerce. -/
def coercePrice (s : String) : Option ℚ := (replaceNotAvailable s).bind parseNumeric

/-! ### Data model -/

/-- One raw row of the pipe-delimited archive file, before coercion; field
names transliterate the column headers (`Petrol Pump Name`, `Address`,
`Contact No`, `State`, `District`, `Latitude`, `Longitude`, `Petrol Price`,
`Diesel Price`, `XTRAPREMIUM Price`, `XTRAMILE Price`). -/
structure RawRow where
  petrolPumpName : String
  address : String
  contactNo : String
  state : String
  district : String
  latitude : String
  longitude : String
  petrolPrice : String
  dieselPrice : String
  xtrapremiumPrice : String
  xtramilePrice : String
deriving Repr, DecidableEq

/-- One loaded station record after `load_data`'s coercions: the price
columns are numeric-or-missing, `Latitude`/`Longitude` are renamed to
`lat`/`lon` and numeric-or-missing. -/
structure Record where
  petrolPumpName : String
  address : String
  contactNo : String
  state : String
  district : String
  lat : Option ℚ
  lon : Option ℚ
  petrolPrice : Option ℚ
  dieselPrice : Option ℚ
  xtrapremiumPrice : Option ℚ
  xtramilePrice : Option ℚ
deriving Repr, DecidableEq

/-- Column coercions of `load_data` applied to one row. -/
def coerceRow (r : RawRow) : Record :=
  { petrolPumpName := r.petrolPumpName
    address := r.address
    contactNo := r.contactNo
    state := r.state
    district := r.district
    lat := parseNumeric r.latitude
    lon := parseNumeric r.longitude
    petrolPrice := coercePrice r.petrolPrice
    dieselPrice := coercePrice r.dieselPrice
    xtrapremiumPrice := coercePrice r.xtrapremiumPrice
    xtramilePrice := coercePrice r.xtramilePrice }

/-- Model of `load_data()`: `files` is the archive directory listing and
`read` models `pd.read_csv(path, delimiter='|')`.  `.ok none` is the
no-data outcome after `st.error`; an uncaught `strptime` exception
propagates as `.error`. -/
def load_data (files : List String) (read : String → List RawRow) :
    Except String (Option (List Record)) :=
  match get_latest_csv files with
  | Except.error e => Except.error e
  | Except.ok none => Except.ok none
  | Except.ok (some path) => Except.ok (some ((read path).map coerceRow))

/-! ### Filter layer -/

/-- State filter of `main`: `df[df["State"] == selected_state]`, a no-op on
the `All` sentinel. -/
def filterState (selected : String) (df : List Record) : List Record :=
  if selected = "All" then df else df.filter (fun r => r.state == selected)

/-- District filter of `main`: `df[df["District"] == selected_district]`,
a no-op on the `All` sentinel. -/
def filterDistrict (selected : String) (df : List Record) : List Record :=
  if selected = "All" then df else df.filter (fun r => r.district == selected)

/-- The two filters in the order `main` applies them: state, then district. -/
def applyFilters (selState selDistrict : String) (df : List Record) : List Record :=
  filterDistrict selDistrict (filterState selState df)

/-- Model of Python `sorted(xs.unique().tolist())` on a column of strings:
first occurrences deduplicated, then sorted lexicographically. -/
def sortedUnique (l : List String) : List String :=
  List.insertionSort (· ≤ ·) l.dedup

/-- District option list of `main`: districts of the rows matching the
selected state (all rows on the `All` sentinel), deduplicated, sorted, with
the `All` sentinel prepended. -/
def districtOptions (df : List Record) (selected_state : String) : List String :=
  if selected_state ≠ "All" then
    "All" :: sortedUnique ((df.filter (fun r => r.state == selected_state)).map (·.district))
  else
    "All" :: sortedUnique (df.map (·.district))

/-! ### Presentation layer -/

/-- Model of pandas `Series.mean()` with default NaN skipping: the mean of
the present values, `none` (NaN) when no value is present. -/
def meanOpt (l : List (Option ℚ)) : Option ℚ :=
  if (l.filterMap id).isEmpty then none
  else some ((l.filterMap id).sum / ((l.filterMap id).length : ℚ))

/-- The three `st.metric` values of `main`: row count, mean petrol price,
mean diesel price. -/
def statsOf (df : List Record) : Nat × Option ℚ × Option ℚ :=
  (df.length, meanOpt (df.map (·.petrolPrice)), meanOpt (df.map (·.dieselPrice)))

/-- The bar-chart data of `main`: one (fuel type, average price) pair per
price column. -/
def priceChart (df : List Record) : List (String × Option ℚ) :=
  [("Petrol Price", meanOpt (df.map (·.petrolPrice))),
   ("Diesel Price", meanOpt (df.map (·.dieselPrice))),
   ("XTRAPREMIUM Price", meanOpt (df.map (·.xtrapremiumPrice))),
   ("XTRAMILE Price", meanOpt (df.map (·.xtramilePrice)))]

/-- Model of `df.dropna(subset=['lat', 'lon'])` in `create_map`. -/
def dropnaLatLon (df : List Record) : List Record :=
  df.filter (fun r => r.lat.isSome && r.lon.isSome)

/-- The pydeck objects `create_map` builds: the scatterplot layer's points
(`get_position=['lon', 'lat']`), fixed color and radius, and the view
state's center and zoom. -/
structure MapSpec where
  points : List (ℚ × ℚ)
  getColor : List Nat
  getRadius : Nat
  latitude : Option ℚ
  longitude : Option ℚ
  zoom : Nat
deriving Repr, DecidableEq

/-- The scatterplot point of one coordinate-complete record:
`get_position=['lon', 'lat']`. -/
def pointOf (r : Record) : Option (ℚ × ℚ) :=
  match r.lon, r.lat with
  | some lo, some la => some (lo, la)
  | _, _ => none

/-- Model of `create_map(df)`: `none` models the `st.warning` branch on an
empty coordinate-complete subset. -/
def create_map (df : List Record) : Option MapSpec :=
  if (dropnaLatLon df).isEmpty then none
  else some
    { points := (dropnaLatLon df).filterMap pointOf
      getColor := [200, 30, 0, 160]
      getRadius := 100
      latitude := meanOpt ((dropnaLatLon df).map (·.lat))
      longitude := meanOpt ((dropnaLatLon df).map (·.lon))
      zoom := 10 }

/-- One row of the `st.dataframe` table of `main`, in its column order. -/
structure TableRow where
  petrolPumpName : String
  address : String
  contactNo : String
  petrolPrice : Option ℚ
  dieselPrice : Option ℚ
  district : String
  state : String
deriving Repr, DecidableEq

/-- Projection of one record onto the table columns. -/
def tableRow (r : Record) : TableRow :=
  { petrolPumpName := r.petrolPumpName
    address := r.address
    contactNo := r.contactNo
    petrolPrice := r.petrolPrice
    dieselPrice := r.dieselPrice
    district := r.district
    state := r.state }

/-- The tabular view of `main`. -/
def tableRows (df : List Record) : List TableRow := df.map tableRow

/-! ### One render pass of `main` -/

/-- Everything one top-to-bottom run of `main` renders.  `none` in an
`Option` field means the corresponding panel was not rendered in that
pass. -/
structure RenderPass where
  errorShown : Bool
  stats : Option (Nat × Option ℚ × Option ℚ)
  chart : Option (List (String × Option ℚ))
  warningShown : Bool
  mapSpec : Option MapSpec
  tableShown : Option (List TableRow)
deriving Repr, DecidableEq

/-- The render pass of `main` when `load_data` returned no data: the
`st.error` message is the only visible output and `main` returns. -/
def errorPass : RenderPass :=
  { errorShown := true
    stats := none
    chart := none
    warningShown := false
    mapSpec := none
    tableShown := none }

/-- The body of `main` after a successful load: filter, then render the
statistics, the chart, the map (or its warning), and the table. -/
def renderBody (df0 : List Record) (selState selDistrict : String) : RenderPass :=
  { errorShown := false
    stats := some (statsOf (applyFilters selState selDistrict df0))
    chart := some (priceChart (applyFilters selState selDistrict df0))
    warningShown := (create_map (applyFilters selState selDistrict df0)).isNone
    mapSpec := create_map (applyFilters selState selDistrict df0)
    tableShown := some (tableRows (applyFilters selState selDistrict df0)) }

/-- One full run of `main` with an empty cache. -/
def main_run (files : List String) (read : String → List RawRow)
    (selState selDistrict : String) : Except String RenderPass :=
  match load_data files read with
  | Except.error e => Except.error e
  | Except.ok none => Except.ok errorPass
  | Except.ok (some df0) => Except.ok (renderBody df0 selState selDistrict)

/-! ### The `st.cache_data` memoization of `load_data` -/

/-- Process-lifetime session state: the memoized return value of
`load_data`, absent before the first call. -/
structure Session where
  cache : Option (Option (List Record))
deriving Repr, DecidableEq

/-- `load_data` through the `st.cache_data` wrapper: a cache hit returns
the memoized value untouched; a miss computes and stores it. -/
def load_data_cached (sess : Session) (files : List String)
    (read : String → List RawRow) :
    Except String (Option (List Record) × Session) :=
  match sess.cache with
  | some v => Except.ok (v, sess)
  | none =>
    match load_data files read with
    | Except.error e => Except.error e
    | Except.ok v => Except.ok (v, ⟨some v⟩)

/-- One run of `main` against the session cache, returning the render pass
and the session it leaves behind. -/
def runSession (sess : Session) (files : List String) (read : String → List RawRow)
    (selState selDistrict : String) : Except String (RenderPass × Session) :=
  match load_data_cached sess files read with
  | Except.error e => Except.error e
  | Except.ok (none, sess') => Except.ok (errorPass, sess')
  | Except.ok (some df0, sess') => Except.ok (renderBody df0 selState selDistrict, sess')

/-! ### Claims about coercion and statistics -/

/-- C2: the sentinel cell and every non-numeric cell coerce to missing,
the mean skips missing entries wherever they sit, and the two-record
scenario under the All/All selection yields count 2, average petrol price
90 and average diesel price 82.50. -/
theorem claim_C2 :
    coercePrice "Not Available" = none ∧
    (∀ s : String, parseNumeric s = none → coercePrice s = none) ∧
    (∀ l₁ l₂ : List (Option ℚ), meanOpt (l₁ ++ none :: l₂) = meanOpt (l₁ ++ l₂)) ∧
    (∀ r1 r2 : RawRow, r1.petrolPrice = "90" → r1.dieselPrice = "80" →
      r2.petrolPrice = "Not Available" → r2.dieselPrice = "85" →
      statsOf (applyFilters "All" "All" [coerceRow r1, coerceRow r2]) =
        (2, some 90, some (165 / 2))) := by
  refine ⟨rfl, ?_, ?_, ?_⟩
  · intro s h
    unfold coercePrice replaceNotAvailable
    by_cases hs : s = "Not Available"
    · simp [hs]
    · simp [hs, h]
  · intro l₁ l₂
    simp [meanOpt, List.filterMap_append]
  · intro r1 r2 h1 h2 h3 h4
    have e1 : coercePrice "90" = some 90 := rfl
    have e2 : coercePrice "80" = some 80 := rfl
    have e3 : coercePrice "Not Available" = none := rfl
    have e4 : coercePrice "85" = some 85 := rfl
    have hf : applyFilters "All" "All" [coerceRow r1, coerceRow r2] =
        [coerceRow r1, coerceRow r2] := by
      simp [applyFilters, filterState, filterDistrict]
    rw [hf]
    simp only [statsOf, List.map_cons, List.map_nil, coerceRow, h1, h2, h3, h4,
      e1, e2, e3, e4, List.length_cons, List.length_nil, Prod.mk.injEq]
    refine ⟨trivial, ?_, ?_⟩
    · simp [meanOpt]
    · simp [meanOpt]
      norm_num

/-! ### Claims about the filter layer -/

theorem filter_swap {α : Type} (p q : α → Bool) (l : List α) :
    (l.filter p).filter q = (l.filter q).filter p := by
  induction l with
  | nil => rfl
  | cons a l ih =>
    by_cases hp : p a <;> by_cases hq : q a <;> simp [hp, hq, ih]

theorem filter_self {α : Type} (p : α → Bool) (l : List α) :
    (l.filter p).filter p = l.filter p := by
  induction l with
  | nil => rfl
  | cons a l ih =>
    by_cases hp : p a <;> simp [hp, ih]

/-- C4: the state filter and the district filter commute, and each one is
idempotent, for every pair of selections. -/
theorem claim_C4 (df : List Record) (s d : String) :
    filterDistrict d (filterState s df) = filterState s (filterDistrict d df) ∧
    filterState s (filterState s df) = filterState s df ∧
    filterDistrict d (filterDistrict d df) = filterDistrict d df := by
  refine ⟨?_, ?_, ?_⟩
  · simp only [filterState, filterDistrict]
    split_ifs <;> first | rfl | exact filter_swap _ _ df
  · simp only [filterState]
    split_ifs <;> first | rfl | exact filter_self _ df
  · simp only [filterDistrict]
    split_ifs <;> first | rfl | exact filter_self _ df

/-- C3: for every record set and state selection, the district option list
is the `All` sentinel followed by the lexicographically sorted, duplicate-free
list of exactly the districts of the records matching the selection (all
records when the selection is `All`). -/
theorem claim_C3 (df : List Record) (sel : String) :
    ∃ opts, districtOptions df sel = "All" :: opts ∧
      opts.Sorted (· ≤ ·) ∧ opts.Nodup ∧
      ∀ d, d ∈ opts ↔ ∃ r ∈ df, (sel = "All" ∨ r.state = sel) ∧ r.district = d := by
  by_cases hs : sel = "All"
  · subst hs
    refine ⟨sortedUnique (df.map (·.district)), by simp [districtOptions], ?_, ?_, ?_⟩
    · exact List.sorted_insertionSort _ _
    · exact ((List.perm_insertionSort _ _).nodup_iff).mpr (List.nodup_dedup _)
    · intro d
      rw [sortedUnique, (List.perm_insertionSort _ _).mem_iff, List.mem_dedup,
        List.mem_map]
      constructor
      · rintro ⟨r, hr, rfl⟩
        exact ⟨r, hr, Or.inl rfl, rfl⟩
      · rintro ⟨r, hr, _, rfl⟩
        exact ⟨r, hr, rfl⟩
  · refine ⟨sortedUnique ((df.filter (fun r => r.state == sel)).map (·.district)),
      by simp [districtOptions, hs], ?_, ?_, ?_⟩
    · exact List.sorted_insertionSort _ _
    · exact ((List.perm_insertionSort _ _).nodup_iff).mpr (List.nodup_dedup _)
    · intro d
      rw [sortedUnique, (List.perm_insertionSort _ _).mem_iff, List.mem_dedup,
        List.mem_map]
      constructor
      · rintro ⟨r, hr, rfl⟩
        obtain ⟨hrd, hrs⟩ := List.mem_filter.mp hr
        exact ⟨r, hrd, Or.inr (by simpa using hrs), rfl⟩
      · rintro ⟨r, hr, hst, rfl⟩
        rcases hst with hst | hst
        · exact absurd hst hs
        · exact ⟨r, List.mem_filter.mpr ⟨hr, by simpa using hst⟩, rfl⟩

/-! ### Claims about the spatial view -/

/-- C5: a record with a missing coordinate is dropped from the map's point
set but keeps its table row, is counted by the record-count metric, and its
price cells stay in the lists the price means aggregate. -/
theorem claim_C5 (df : List Record) (r : Record) (hmem : r ∈ df)
    (h : r.lat = none ∨ r.lon = none) :
    r ∉ dropnaLatLon df ∧ tableRow r ∈ tableRows df ∧
    (statsOf df).1 = df.length ∧
    (statsOf df).2.1 = meanOpt (df.map (·.petrolPrice)) ∧
    (statsOf df).2.2 = meanOpt (df.map (·.dieselPrice)) ∧
    r.petrolPrice ∈ df.map (·.petrolPrice) ∧
    r.dieselPrice ∈ df.map (·.dieselPrice) := by
  refine ⟨?_, List.mem_map_of_mem _ hmem, rfl, rfl, rfl,
    List.mem_map_of_mem _ hmem, List.mem_map_of_mem _ hmem⟩
  intro hcontra
  have hc := (List.mem_filter.mp hcontra).2
  rcases h with h | h <;> simp [h] at hc

/-- Record of the worked examples with a missing latitude. -/
def demoNoCoord : Record :=
  { petrolPumpName := "Station One"
    address := "MG Road"
    contactNo := "123"
    state := "Karnataka"
    district := "Bengaluru"
    lat := none
    lon := some 77
    petrolPrice := some 100
    dieselPrice := some 90
    xtrapremiumPrice := none
    xtramilePrice := none }

theorem claim_C5_witness :
    demoNoCoord ∉ dropnaLatLon [demoNoCoord] ∧
    tableRow demoNoCoord ∈ tableRows [demoNoCoord] ∧
    (statsOf [demoNoCoord]).1 = [demoNoCoord].length ∧
    (statsOf [demoNoCoord]).2.1 = meanOpt ([demoNoCoord].map (·.petrolPrice)) ∧
    (statsOf [demoNoCoord]).2.2 = meanOpt ([demoNoCoord].map (·.dieselPrice)) ∧
    demoNoCoord.petrolPrice ∈ [demoNoCoord].map (·.petrolPrice) ∧
    demoNoCoord.dieselPrice ∈ [demoNoCoord].map (·.dieselPrice) :=
  claim_C5 [demoNoCoord] demoNoCoord (List.mem_singleton.mpr rfl) (Or.inl rfl)

theorem filterMap_id_length_of_isSome {α : Type} (l : List (Option α))
    (h : ∀ x ∈ l, x.isSome) : (l.filterMap id).length = l.length := by
  induction l with
  | nil => rfl
  | cons a l ih =>
    obtain ⟨x, hx⟩ := Option.isSome_iff_exists.mp (h a (List.mem_cons_self a l))
    subst hx
    simp [ih (fun y hy => h y (List.mem_cons_of_mem _ hy))]

theorem dropnaLatLon_isSome (df : List Record) :
    ∀ r ∈ dropnaLatLon df, r.lat.isSome ∧ r.lon.isSome := by
  intro r hr
  have hc := (List.mem_filter.mp hr).2
  exact ⟨(Bool.and_eq_true_iff.mp hc).1, (Bool.and_eq_true_iff.mp hc).2⟩

/-- C8: with at least one coordinate-complete record, `create_map` centers
the view on the centroid of the coordinate-complete subset and plots one
point per such record at the fixed radius and color. -/
theorem claim_C8 (df : List Record) (h : dropnaLatLon df ≠ []) :
    ∃ spec, create_map df = some spec ∧
      spec.latitude =
        some ((((dropnaLatLon df).map (·.lat)).filterMap id).sum /
          ((dropnaLatLon df).length : ℚ)) ∧
      spec.longitude =
        some ((((dropnaLatLon df).map (·.lon)).filterMap id).sum /
          ((dropnaLatLon df).length : ℚ)) ∧
      spec.points.length = (dropnaLatLon df).length ∧
      spec.getRadius = 100 ∧ spec.getColor = [200, 30, 0, 160] ∧
      spec.zoom = 10 := by
  have hne : (dropnaLatLon df).isEmpty = false := by
    simpa [List.isEmpty_iff] using h
  have hlat : ∀ x ∈ (dropnaLatLon df).map (·.lat), x.isSome := by
    intro x hx
    obtain ⟨r, hr, rfl⟩ := List.mem_map.mp hx
    exact (dropnaLatLon_isSome df r hr).1
  have hlon : ∀ x ∈ (dropnaLatLon df).map (·.lon), x.isSome := by
    intro x hx
    obtain ⟨r, hr, rfl⟩ := List.mem_map.mp hx
    exact (dropnaLatLon_isSome df r hr).2
  have hlatlen := filterMap_id_length_of_isSome _ hlat
  have hlonlen := filterMap_id_length_of_isSome _ hlon
  have hdlen : (dropnaLatLon df).length ≠ 0 := fun hc => h (List.length_eq_zero.mp hc)
  have hlatne : (((dropnaLatLon df).map (·.lat)).filterMap id).isEmpty = false := by
    rw [List.isEmpty_eq_false]
    intro hc
    apply hdlen
    have hlen := congrArg List.length hc
    rw [hlatlen, List.length_map] at hlen
    simpa using hlen
  have hlonne : (((dropnaLatLon df).map (·.lon)).filterMap id).isEmpty = false := by
    rw [List.isEmpty_eq_false]
    intro hc
    apply hdlen
    have hlen := congrArg List.length hc
    rw [hlonlen, List.length_map] at hlen
    simpa using hlen
  refine ⟨⟨(dropnaLatLon df).filterMap pointOf, [200, 30, 0, 160], 100,
      meanOpt ((dropnaLatLon df).map (·.lat)), meanOpt ((dropnaLatLon df).map (·.lon)),
      10⟩, ?_, ?_, ?_, ?_, rfl, rfl, rfl⟩
  · simp [create_map, hne]
  · simp only [meanOpt, hlatne, Bool.false_eq_true, if_false, hlatlen, List.length_map]
  · simp only [meanOpt, hlonne, Bool.false_eq_true, if_false, hlonlen, List.length_map]
  · have hall : ∀ l : List Record, (∀ r ∈ l, r.lat.isSome ∧ r.lon.isSome) →
        (l.filterMap pointOf).length = l.length := by
      intro l
      induction l with
      | nil => intro; rfl
      | cons a l ih =>
        intro hall
        obtain ⟨h1, h2⟩ := hall a (List.mem_cons_self a l)
        obtain ⟨la, hla⟩ := Option.isSome_iff_exists.mp h1
        obtain ⟨lo, hlo⟩ := Option.isSome_iff_exists.mp h2
        simp [List.filterMap_cons, pointOf, hla, hlo,
          ih (fun y hy => hall y (List.mem_cons_of_mem a hy))]
    exact hall _ (dropnaLatLon_isSome df)

/-- Record of the worked examples with both coordinates present. -/
def demoWithCoord : Record :=
  { petrolPumpName := "Station Two"
    address := "Ring Road"
    contactNo := "456"
    state := "Karnataka"
    district := "Mysuru"
    lat := some 12
    lon := some 76
    petrolPrice := some 101
    dieselPrice := some 91
    xtrapremiumPrice := none
    xtramilePrice := none }

theorem claim_C8_witness :
    ∃ spec, create_map [demoWithCoord] = some spec ∧
      spec.latitude =
        some ((((dropnaLatLon [demoWithCoord]).map (·.lat)).filterMap id).sum /
          ((dropnaLatLon [demoWithCoord]).length : ℚ)) ∧
      spec.longitude =
        some ((((dropnaLatLon [demoWithCoord]).map (·.lon)).filterMap id).sum /
          ((dropnaLatLon [demoWithCoord]).length : ℚ)) ∧
      spec.points.length = (dropnaLatLon [demoWithCoord]).length ∧
      spec.getRadius = 100 ∧ spec.getColor = [200, 30, 0, 160] ∧
      spec.zoom = 10 :=
  claim_C8 [demoWithCoord] (by simp [dropnaLatLon, demoWithCoord])

/-! ### Claims about the load failure path and the render pass -/

/-- C6: when the locator reports not-found, the loader yields no data and
the render pass consists of the error message alone; no filter, statistic,
chart, map or table is rendered. -/
theorem claim_C6 (files : List String) (read : String → List RawRow)
    (selState selDistrict : String) (h : get_latest_csv files = Except.ok none) :
    load_data files read = Except.ok none ∧
    main_run files read selState selDistrict = Except.ok errorPass := by
  have hl : load_data files read = Except.ok none := by
    simp only [load_data, h]
  exact ⟨hl, by simp only [main_run, hl]⟩

theorem claim_C6_witness :
    load_data ["notes.txt"] (fun _ => []) = Except.ok none ∧
    main_run ["notes.txt"] (fun _ => []) "All" "All" = Except.ok errorPass :=
  claim_C6 ["notes.txt"] (fun _ => []) "All" "All" rfl

/-- C7: when every filtered record lacks a coordinate, the pass emits the
non-blocking warning and no map, while the statistics, the chart and the
table still render. -/
theorem claim_C7 (files : List String) (read : String → List RawRow)
    (selState selDistrict path : String)
    (h1 : get_latest_csv files = Except.ok (some path))
    (h2 : dropnaLatLon (applyFilters selState selDistrict ((read path).map coerceRow)) = []) :
    ∃ pass, main_run files read selState selDistrict = Except.ok pass ∧
      pass.errorShown = false ∧ pass.warningShown = true ∧ pass.mapSpec = none ∧
      pass.stats.isSome ∧ pass.chart.isSome ∧ pass.tableShown.isSome := by
  have hl : load_data files read = Except.ok (some ((read path).map coerceRow)) := by
    simp only [load_data, h1]
  have hcm : create_map (applyFilters selState selDistrict ((read path).map coerceRow)) =
      none := by
    simp [create_map, h2]
  refine ⟨renderBody ((read path).map coerceRow) selState selDistrict, ?_, ?_⟩
  · simp only [main_run, hl]
  · simp [renderBody, hcm]

/-- Raw row of the worked examples whose coordinate cells do not parse. -/
def demoRawNoCoord : RawRow :=
  { petrolPumpName := "Station Three"
    address := "Lake Road"
    contactNo := "789"
    state := "Karnataka"
    district := "Hubballi"
    latitude := "Not Available"
    longitude := ""
    petrolPrice := "102"
    dieselPrice := "92"
    xtrapremiumPrice := "Not Available"
    xtramilePrice := "Not Available" }

theorem claim_C7_witness :
    ∃ pass, main_run ["IOCL_2024_01_01_120000.csv"] (fun _ => [demoRawNoCoord])
        "All" "All" = Except.ok pass ∧
      pass.errorShown = false ∧ pass.warningShown = true ∧ pass.mapSpec = none ∧
      pass.stats.isSome ∧ pass.chart.isSome ∧ pass.tableShown.isSome :=
  claim_C7 ["IOCL_2024_01_01_120000.csv"] (fun _ => [demoRawNoCoord]) "All" "All"
    ("archive/" ++ "IOCL_2024_01_01_120000.csv") rfl (by decide)

/-! ### Claims about immutability of the loaded set -/

theorem filterState_sublist (s : String) (df : List Record) :
    List.Sublist (filterState s df) df := by
  unfold filterState
  split_ifs
  · exact List.Sublist.refl df
  · exact List.filter_sublist df

theorem filterDistrict_sublist (d : String) (df : List Record) :
    List.Sublist (filterDistrict d df) df := by
  unfold filterDistrict
  split_ifs
  · exact List.Sublist.refl df
  · exact List.filter_sublist df

/-- C9: a render pass against a warm cache leaves the session (and so the
loaded record set) exactly as it was, and the filtered view is a sublist of
the loaded set, every one of whose records is a record of the loaded set,
unchanged. -/
theorem claim_C9 (sess : Session) (df0 : List Record) (files : List String)
    (read : String → List RawRow) (selState selDistrict : String)
    (h : sess.cache = some (some df0)) :
    runSession sess files read selState selDistrict =
      Except.ok (renderBody df0 selState selDistrict, sess) ∧
    List.Sublist (applyFilters selState selDistrict df0) df0 ∧
    ∀ r ∈ applyFilters selState selDistrict df0, r ∈ df0 := by
  have hsub : List.Sublist (applyFilters selState selDistrict df0) df0 :=
    List.Sublist.trans (filterDistrict_sublist selDistrict (filterState selState df0))
      (filterState_sublist selState df0)
  refine ⟨?_, hsub, fun r hr => hsub.subset hr⟩
  simp only [runSession, load_data_cached, h]

theorem claim_C9_witness :
    runSession ⟨some (some [demoWithCoord])⟩ [] (fun _ => []) "All" "All" =
      Except.ok (renderBody [demoWithCoord] "All" "All", ⟨some (some [demoWithCoord])⟩) ∧
    List.Sublist (applyFilters "All" "All" [demoWithCoord]) [demoWithCoord] ∧
    ∀ r ∈ applyFilters "All" "All" [demoWithCoord], r ∈ [demoWithCoord] :=
  claim_C9 ⟨some (some [demoWithCoord])⟩ [demoWithCoord] [] (fun _ => []) "All" "All" rfl

/-- Raw rows of the two-record end-to-end scenario of the spec. -/
def demoRaw1 : RawRow :=
  { petrolPumpName := "Station One"
    address := "MG Road"
    contactNo := "111"
    state := "Karnataka"
    district := "Bengaluru"
    latitude := "12.9"
    longitude := "77.5"
    petrolPrice := "90"
    dieselPrice := "80"
    xtrapremiumPrice := "95"
    xtramilePrice := "Not Available" }

/-- Second raw row of the scenario: petrol price is the sentinel. -/
def demoRaw2 : RawRow :=
  { petrolPumpName := "Station Two"
    address := "Ring Road"
    contactNo := "222"
    state := "Karnataka"
    district := "Mysuru"
    latitude := "Not Available"
    longitude := "76.6"
    petrolPrice := "Not Available"
    dieselPrice := "85"
    xtrapremiumPrice := "96"
    xtramilePrice := "88" }

theorem claim_C2_witness :
    statsOf (applyFilters "All" "All" [coerceRow demoRaw1, coerceRow demoRaw2]) =
      (2, some 90, some (165 / 2)) :=
  claim_C2.2.2.2 demoRaw1 demoRaw2 rfl rfl rfl rfl
